import Mathlib

/-!
# Verification of the Gateway utility functions of a Kubernetes ingress controller

This file gives a shallow embedding of `internal/controllers/gateway/gateway_utils.go`
and proves properties of the embedded functions.

Modelling notes:
* Go typed-string constants (condition types, statuses, reasons, protocols) are
  modelled as `String` constants with the same values, exactly as in the
  `gateway-api` / `metav1` packages the code compares against.
* Go `map` values are modelled as association lists (`List (κ × β)`) with
  replace-on-insert semantics.  The code only ever looks maps up, inserts into
  them and takes `len`; it never iterates over a map, so association lists with
  no duplicate keys are an exact model.
* `int32`/`int64` fields (ports, generations, attached-route counts) are
  modelled as `Int`.  The code performs no arithmetic on them, only equality
  comparison, so the width is immaterial and no overflow can occur.
* `metav1.Time` (`LastTransitionTime`, set to `metav1.Now()`) is wall-clock
  input with no influence on any other field; it is omitted from the model.
-/

namespace KIC

/-! ## Definitions: the shallow embedding and concrete inputs -/

/-- `metav1.ConditionTrue`. -/
def ConditionTrue : String := "True"

/-- `metav1.ConditionFalse`. -/
def ConditionFalse : String := "False"

/-- `gatewayv1alpha2.HTTPProtocolType`. -/
def HTTPProtocolType : String := "HTTP"

/-- `gatewayv1alpha2.HTTPSProtocolType`. -/
def HTTPSProtocolType : String := "HTTPS"

/-- `gatewayv1alpha2.TLSProtocolType`. -/
def TLSProtocolType : String := "TLS"

/-- `gatewayv1alpha2.TCPProtocolType`. -/
def TCPProtocolType : String := "TCP"

/-- `gatewayv1alpha2.UDPProtocolType`. -/
def UDPProtocolType : String := "UDP"

/-- `gatewayv1alpha2.GatewayConditionReady`. -/
def GatewayConditionReady : String := "Ready"

/-- `gatewayv1alpha2.GatewayReasonReady`. -/
def GatewayReasonReady : String := "Ready"

/-- `gatewayv1alpha2.ListenerConditionConflicted`. -/
def ListenerConditionConflicted : String := "Conflicted"

/-- `gatewayv1alpha2.ListenerConditionDetached`. -/
def ListenerConditionDetached : String := "Detached"

/-- `gatewayv1alpha2.ListenerConditionReady`. -/
def ListenerConditionReady : String := "Ready"

/-- `gatewayv1alpha2.ListenerReasonProtocolConflict`. -/
def ListenerReasonProtocolConflict : String := "ProtocolConflict"

/-- `gatewayv1alpha2.ListenerReasonHostnameConflict`. -/
def ListenerReasonHostnameConflict : String := "HostnameConflict"

/-- `gatewayv1alpha2.ListenerReasonNoConflicts`. -/
def ListenerReasonNoConflicts : String := "NoConflicts"

/-- `gatewayv1alpha2.ListenerReasonUnsupportedProtocol`. -/
def ListenerReasonUnsupportedProtocol : String := "UnsupportedProtocol"

/-- `gatewayv1alpha2.ListenerReasonPortUnavailable`. -/
def ListenerReasonPortUnavailable : String := "PortUnavailable"

/-- `gatewayv1alpha2.ListenerReasonReady`. -/
def ListenerReasonReady : String := "Ready"

/-- `gatewayv1alpha2.ListenerReasonPending`. -/
def ListenerReasonPending : String := "Pending"

/-- `maxConds`: the maximum number of status conditions a Gateway can have at one time. -/
def maxConds : Nat := 8

/-- Modelled from the spec: the controller identity string (`ControllerName`, defined
outside the included sources).  The code only ever compares other strings against it,
so its concrete value does not affect any claim. -/
def ControllerName : String := "konghq.com/kic-gateway-controller"

/-- Modelled from the spec: "a fixed, statically known set the controller supports"
(`supportedRouteGroupKinds`, defined outside the included sources).  The code copies
it verbatim into every `ListenerStatus`; its value does not affect any claim. -/
def supportedRouteGroupKinds : List String :=
  ["HTTPRoute", "TCPRoute", "UDPRoute", "TLSRoute"]

/-- `metav1.Condition` (the fields the code reads or writes; `LastTransitionTime`
is omitted, see the module docstring). -/
structure Condition where
  type : String
  status : String
  observedGeneration : Int
  reason : String
  message : String
deriving DecidableEq, Repr

/-- `gatewayv1alpha2.Listener`: one desired protocol/port/hostname binding.
Also used for entries of the data-plane listen set (`kongListens`), of which the
code reads only `Protocol` and `Port`. -/
structure Listener where
  name : String
  hostname : Option String
  port : Int
  protocol : String
deriving DecidableEq, Repr

/-- `gatewayv1alpha2.ListenerStatus`. -/
structure ListenerStatus where
  name : String
  supportedKinds : List String
  attachedRoutes : Int
  conditions : List Condition
deriving DecidableEq, Repr

/-- The `Status` part of a Gateway: top-level conditions and listener statuses. -/
structure GatewayStatus where
  conditions : List Condition
  listeners : List ListenerStatus
deriving DecidableEq, Repr

/-- `gatewayv1alpha2.Gateway` (the fields the code reads or writes).
`ns` stands for the object's namespace; `listeners` is `Spec.Listeners` and
`gatewayClassName` is `Spec.GatewayClassName`. -/
structure Gateway where
  name : String
  ns : String
  generation : Int
  gatewayClassName : String
  listeners : List Listener
  status : GatewayStatus
deriving DecidableEq, Repr

/-- Go map lookup: `v, ok := m[k]` modelled as `Option`. -/
def lookupA {α β : Type} [BEq α] (m : List (α × β)) (k : α) : Option β :=
  (m.find? (fun e => e.1 == k)).map (fun e => e.2)

/-- Go map insert: `m[k] = v`.  The new binding replaces any previous binding of
`k`, so the list never holds duplicate keys. -/
def insertA {α β : Type} [BEq α] (m : List (α × β)) (k : α) (v : β) : List (α × β) :=
  (k, v) :: m.filter (fun e => !(e.1 == k))

/-- `isGatewayReady`: returns whether the ready condition exists for the given
gateway object if it matches the currently known generation of that object.
Note: the code checks the condition's type, reason and observed generation but
not its status. -/
def isGatewayReady (gateway : Gateway) : Bool :=
  gateway.status.conditions.any (fun cond =>
    cond.type == GatewayConditionReady && cond.reason == GatewayReasonReady &&
      cond.observedGeneration == gateway.generation)

/-- `pruneGatewayStatusConds`: cleans out old status conditions if the Gateway
currently has more status conditions set than the `maxConds` maximum. -/
def pruneGatewayStatusConds (gateway : Gateway) : Gateway :=
  if gateway.status.conditions.length > maxConds then
    { gateway with
      status := { gateway.status with
        conditions := gateway.status.conditions.drop (gateway.status.conditions.length - maxConds) } }
  else gateway

/-- `reconcileGatewaysIfClassMatches`: converts a list of gateways into a list of
reconciliation requests (namespace, name pairs) for the gateways that match the
given class.  The Go function receives the class as a `client.Object` and reads
only `GetName()` from it, modelled here as the `gatewayClassName` argument. -/
def reconcileGatewaysIfClassMatches (gatewayClassName : String) (gateways : List Gateway) :
    List (String × String) :=
  gateways.foldl
    (fun recs gateway =>
      if gateway.gatewayClassName == gatewayClassName then recs ++ [(gateway.ns, gateway.name)]
      else recs)
    []

/-- A `client.Object` as seen by the event predicate: either a `GatewayClass`
(of which only `Spec.ControllerName` is read) or some other object type, for
which the Go type assertion fails. -/
inductive ClientObject where
  | gatewayClass (controllerName : String)
  | otherObject
deriving DecidableEq, Repr

/-- A controller-runtime watch event (`interface{}` payload): one of the four
event kinds, or any other payload (the `default` case of the Go type switch). -/
inductive WatchEvent where
  | create (obj : ClientObject)
  | delete (obj : ClientObject)
  | generic (obj : ClientObject)
  | update (objOld objNew : ClientObject)
  | unknownPayload
deriving DecidableEq, Repr

/-- Body of the `for _, obj := range objs` loop: a non-GatewayClass object is
logged and skipped (never matches); a GatewayClass matches iff its
`Spec.ControllerName` equals `ControllerName`. -/
def objInClass : ClientObject → Bool
  | .gatewayClass controllerName => controllerName == ControllerName
  | .otherObject => false

/-- `isGatewayClassEventInClass`: whether an event which contains one or more
GatewayClass objects is supported by this controller according to those objects'
`ControllerName`.  The `default` case of the type switch logs an error and
returns `false`. -/
def isGatewayClassEventInClass (watchEvent : WatchEvent) : Bool :=
  match watchEvent with
  | .create obj => [obj].any objInClass
  | .delete obj => [obj].any objInClass
  | .generic obj => [obj].any objInClass
  | .update objOld objNew => [objOld, objNew].any objInClass
  | .unknownPayload => false

/-- The payload objects an event carries, following the spec's description:
one object for create/delete/generic events, old and new for update events,
none for an unrecognised payload. -/
def eventPayloadObjects : WatchEvent → List ClientObject
  | .create obj => [obj]
  | .delete obj => [obj]
  | .generic obj => [obj]
  | .update objOld objNew => [objOld, objNew]
  | .unknownPayload => []

/-- The two claim maps of the algorithm: `portsToProtocol` maps a port to the
protocol that first claimed it; `portsToHostnames` maps a port to a
hostname → listener-name claim map (HTTP/HTTPS/TLS only). -/
structure ClaimMaps where
  portsToProtocol : List (Int × String)
  portsToHostnames : List (Int × List (String × String))
deriving DecidableEq, Repr

/-- `protocols`: for each protocol in `kongListens`, the set of ports bound to
it (`protocols[listen.Protocol][listen.Port] = true`, creating the inner map
when absent). -/
def buildProtocols (kongListens : List Listener) : List (String × List (Int × Bool)) :=
  kongListens.foldl
    (fun protocols listen =>
      insertA protocols listen.protocol
        (insertA ((lookupA protocols listen.protocol).getD []) listen.port true))
    []

/-- `existingListenerStatuses`: index of the previous `ListenerStatus` entries
by listener name. -/
def buildExisting (statusListeners : List ListenerStatus) : List (String × ListenerStatus) :=
  statusListeners.foldl (fun m listenerStatus => insertA m listenerStatus.name listenerStatus) []

/-- One matching condition inside the pre-seeding pass: if the condition is
Conflicted=False, claim the listener's port (first claim wins) and, for
HTTP/HTTPS/TLS, its (port, hostname) pair (`nil` hostname normalised to `""`;
the assignment overwrites any previous claim for the pair). -/
def preseedCondition (listener : Listener) (maps : ClaimMaps) (condition : Condition) : ClaimMaps :=
  if condition.type == ListenerConditionConflicted && condition.status == ConditionFalse then
    let portsToProtocol :=
      if (lookupA maps.portsToProtocol listener.port).isNone then
        insertA maps.portsToProtocol listener.port listener.protocol
      else maps.portsToProtocol
    let portsToHostnames :=
      if listener.protocol == HTTPProtocolType || listener.protocol == HTTPSProtocolType ||
          listener.protocol == TLSProtocolType then
        insertA maps.portsToHostnames listener.port
          (insertA ((lookupA maps.portsToHostnames listener.port).getD [])
            (listener.hostname.getD "") listener.name)
      else maps.portsToHostnames
    ⟨portsToProtocol, portsToHostnames⟩
  else maps

/-- Pre-seeding for one spec listener: fold `preseedCondition` over the
conditions of its previous status entry, if it has one. -/
def preseedListener (existing : List (String × ListenerStatus)) (maps : ClaimMaps)
    (listener : Listener) : ClaimMaps :=
  match lookupA existing listener.name with
  | some listenerStatus => listenerStatus.conditions.foldl (preseedCondition listener) maps
  | none => maps

/-- The pre-seeding pass: run through spec listeners with existing no-conflict
statuses first; they take precedence in the event of a conflict later. -/
def preseedPass (existing : List (String × ListenerStatus)) (listeners : List Listener) :
    ClaimMaps :=
  listeners.foldl (preseedListener existing) ⟨[], []⟩

/-- The Conflicted=True (ProtocolConflict) condition. -/
def protocolConflictCond (generation : Int) : Condition :=
  ⟨ListenerConditionConflicted, ConditionTrue, generation, ListenerReasonProtocolConflict, ""⟩

/-- The Conflicted=True (HostnameConflict) condition. -/
def hostnameConflictCond (generation : Int) : Condition :=
  ⟨ListenerConditionConflicted, ConditionTrue, generation, ListenerReasonHostnameConflict, ""⟩

/-- The Detached=True (UnsupportedProtocol) condition. -/
def unsupportedProtocolCond (generation : Int) : Condition :=
  ⟨ListenerConditionDetached, ConditionTrue, generation, ListenerReasonUnsupportedProtocol,
    "no Kong listen with the requested protocol is configured"⟩

/-- The Detached=True (PortUnavailable) condition. -/
def portUnavailableCond (generation : Int) : Condition :=
  ⟨ListenerConditionDetached, ConditionTrue, generation, ListenerReasonPortUnavailable,
    "no Kong listen with the requested protocol is configured for the requested port"⟩

/-- The Conflicted=False (NoConflicts) condition. -/
def noConflictsCond (generation : Int) : Condition :=
  ⟨ListenerConditionConflicted, ConditionFalse, generation, ListenerReasonNoConflicts, ""⟩

/-- The Ready=True (Ready) condition. -/
def readyCond (generation : Int) : Condition :=
  ⟨ListenerConditionReady, ConditionTrue, generation, ListenerReasonReady,
    "the listener is ready and available for routing"⟩

/-- The Ready=False (Pending) condition. -/
def pendingCond (generation : Int) : Condition :=
  ⟨ListenerConditionReady, ConditionFalse, generation, ListenerReasonPending,
    "the listener is not ready and cannot route requests"⟩

/-- Result of the conflict check for one listener: the updated claim maps plus
the conflict conditions (empty or a single Conflicted=True condition) appended
to the listener's status. -/
structure ConflictStep where
  maps : ClaimMaps
  conds : List Condition
deriving DecidableEq, Repr

/-- The protocol/port and hostname conflict check of the evaluation pass.
If the listener's port is unclaimed, claim it with the listener's protocol.
If claimed by TCP or UDP, ProtocolConflict.  Else if the claiming protocol is
the listener's own (or the HTTPS/TLS pairing), check the hostname claim map:
an unclaimed (port, hostname) is claimed; a claim held by a different listener
name is a HostnameConflict; a claim held by this listener (from pre-seeding)
is no conflict.  Any other protocol combination is a ProtocolConflict. -/
def evalConflict (generation : Int) (listener : Listener) (maps : ClaimMaps) : ConflictStep :=
  match lookupA maps.portsToProtocol listener.port with
  | none =>
    ⟨⟨insertA maps.portsToProtocol listener.port listener.protocol, maps.portsToHostnames⟩, []⟩
  | some claimed =>
    if claimed == TCPProtocolType || claimed == UDPProtocolType then
      ⟨maps, [protocolConflictCond generation]⟩
    else if claimed == listener.protocol ||
        (listener.protocol == HTTPSProtocolType && claimed == TLSProtocolType) ||
        (listener.protocol == TLSProtocolType && claimed == HTTPSProtocolType) then
      let inner := (lookupA maps.portsToHostnames listener.port).getD []
      let hostname := listener.hostname.getD ""
      match lookupA inner hostname with
      | none =>
        ⟨⟨maps.portsToProtocol,
          insertA maps.portsToHostnames listener.port (insertA inner hostname listener.name)⟩, []⟩
      | some owner =>
        if owner == listener.name then ⟨maps, []⟩
        else ⟨maps, [hostnameConflictCond generation]⟩
    else ⟨maps, [protocolConflictCond generation]⟩

/-- The detachment checks: `protocols[listener.Protocol]` empty gives
Detached=True (UnsupportedProtocol); `protocols[listener.Protocol][listener.Port]`
absent gives Detached=True (PortUnavailable).  The two `if`s are independent in
the code, so both conditions are appended when the protocol has no listens. -/
def detachConds (protocols : List (String × List (Int × Bool))) (generation : Int)
    (listener : Listener) : List Condition :=
  let protoPorts := (lookupA protocols listener.protocol).getD []
  (if protoPorts.length == 0 then [unsupportedProtocolCond generation] else []) ++
    (if (lookupA protoPorts listener.port).isNone then [portUnavailableCond generation] else [])

/-- The readiness tail: with no conditions accumulated the listener gets
Conflicted=False (NoConflicts) and Ready=True (Ready); otherwise Ready=False
(Pending) is appended to the accumulated conditions. -/
def finishConds (generation : Int) (conds : List Condition) : List Condition :=
  if conds.length == 0 then conds ++ [noConflictsCond generation, readyCond generation]
  else conds ++ [pendingCond generation]

/-- Evaluation of one spec listener: carry over `attachedRoutes` from the
previous status, run the conflict and detachment checks, finish with the
readiness conditions. -/
def evalListener (generation : Int) (protocols : List (String × List (Int × Bool)))
    (existing : List (String × ListenerStatus)) (maps : ClaimMaps) (listener : Listener) :
    ClaimMaps × ListenerStatus :=
  let attachedRoutes :=
    match lookupA existing listener.name with
    | some listenerStatus => listenerStatus.attachedRoutes
    | none => 0
  let step := evalConflict generation listener maps
  (step.maps,
    ⟨listener.name, supportedRouteGroupKinds, attachedRoutes,
      finishConds generation (step.conds ++ detachConds protocols generation listener)⟩)

/-- The evaluation pass over spec listeners in spec order, threading the claim
maps and collecting one `ListenerStatus` per listener. -/
def evalListeners (generation : Int) (protocols : List (String × List (Int × Bool)))
    (existing : List (String × ListenerStatus)) :
    ClaimMaps → List Listener → List ListenerStatus
  | _, [] => []
  | maps, listener :: rest =>
    let r := evalListener generation protocols existing maps listener
    r.2 :: evalListeners generation protocols existing r.1 rest

/-- `getListenerStatus`: computes the per-listener conflict/detachment/readiness
conditions for a Gateway against the data-plane listen set. -/
def getListenerStatus (gateway : Gateway) (kongListens : List Listener) : List ListenerStatus :=
  let protocols := buildProtocols kongListens
  let existing := buildExisting gateway.status.listeners
  let maps := preseedPass existing gateway.listeners
  evalListeners gateway.generation protocols existing maps gateway.listeners

/-- Number of conditions of type `t`. -/
def countCondType (conds : List Condition) (t : String) : Nat :=
  (conds.filter (fun c => c.type == t)).length

/-- Number of conditions of type `t`, status `s` and reason `r`. -/
def countCond (conds : List Condition) (t s r : String) : Nat :=
  (conds.filter (fun c => c.type == t && c.status == s && c.reason == r)).length

/-- Whether a condition of type `t` and status `s` is present. -/
def hasCondTS (conds : List Condition) (t s : String) : Bool :=
  conds.any (fun c => c.type == t && c.status == s)

/-- Whether a condition of type `t`, status `s` and reason `r` is present. -/
def hasCond (conds : List Condition) (t s r : String) : Bool :=
  conds.any (fun c => c.type == t && c.status == s && c.reason == r)

/-- Bool check: at most one Conflicted, at most one Ready, at most two Detached
conditions in a listener status. -/
def condTypeBoundsOK (st : ListenerStatus) : Bool :=
  decide (countCondType st.conditions ListenerConditionConflicted ≤ 1) &&
    decide (countCondType st.conditions ListenerConditionReady ≤ 1) &&
    decide (countCondType st.conditions ListenerConditionDetached ≤ 2)

/-- The Gateway used in the C2 counterexample: a single UDP listener, with the
data plane configured with no listens at all. -/
def udpOnlyGw : Gateway :=
  ⟨"gw", "default", 0, "kong", [⟨"lis", none, 8080, UDPProtocolType⟩], ⟨[], []⟩⟩

/-- Bool check relating a listener and its status to the data-plane listen set:
the status carries Detached=True (UnsupportedProtocol) exactly when the data
plane has no listen of the listener's protocol; it carries Detached=True
(PortUnavailable) exactly when the data plane has no listen of the listener's
protocol on the listener's port; and it carries no other Detached condition. -/
def detachSpecOK (kongListens : List Listener) (listener : Listener) (st : ListenerStatus) :
    Bool :=
  let protoPresent := kongListens.any fun l => l.protocol == listener.protocol
  let portPresent :=
    kongListens.any fun l => l.protocol == listener.protocol && l.port == listener.port
  (countCond st.conditions ListenerConditionDetached ConditionTrue
      ListenerReasonUnsupportedProtocol == if protoPresent then 0 else 1) &&
    (countCond st.conditions ListenerConditionDetached ConditionTrue
      ListenerReasonPortUnavailable == if portPresent then 0 else 1) &&
    (countCondType st.conditions ListenerConditionDetached ==
      (if protoPresent then 0 else 1) + (if portPresent then 0 else 1))

/-- The Gateway used in the C3 counterexample: a single HTTP listener. -/
def httpOnlyGw : Gateway :=
  ⟨"gw", "default", 0, "kong", [⟨"web", none, 9000, HTTPProtocolType⟩], ⟨[], []⟩⟩

/-- The Gateway of the C5 counterexample: listener "a" (HTTP, port 80, hostname
h.com) with a previous Conflicted=False status, and listener "b" (HTTPS, port
80, hostname h.com) with no previous status. -/
def mixedProtoPrevGw : Gateway :=
  ⟨"gw", "default", 1, "kong",
    [⟨"a", some "h.com", 80, HTTPProtocolType⟩, ⟨"b", some "h.com", 80, HTTPSProtocolType⟩],
    ⟨[], [⟨"a", supportedRouteGroupKinds, 0,
      [⟨ListenerConditionConflicted, ConditionFalse, 0, ListenerReasonNoConflicts, ""⟩]⟩]⟩⟩

/-- The Gateway of the C6 counterexample: two HTTPS listeners on port 443, both
with hostname a.com, and empty previous status. -/
def doubleAcomGw : Gateway :=
  ⟨"gw", "default", 1, "kong",
    [⟨"x", some "a.com", 443, HTTPSProtocolType⟩, ⟨"y", some "a.com", 443, HTTPSProtocolType⟩],
    ⟨[], []⟩⟩

/-- The Gateway of the C10 counterexample: listener "a" (HTTP) and listener "b"
(HTTPS) on port 80 with the same hostname, BOTH carrying a previous
Conflicted=False status. -/
def mixedProtoBothPrevGw : Gateway :=
  ⟨"gw", "default", 1, "kong",
    [⟨"a", some "h.com", 80, HTTPProtocolType⟩, ⟨"b", some "h.com", 80, HTTPSProtocolType⟩],
    ⟨[], [⟨"a", supportedRouteGroupKinds, 0,
        [⟨ListenerConditionConflicted, ConditionFalse, 0, ListenerReasonNoConflicts, ""⟩]⟩,
      ⟨"b", supportedRouteGroupKinds, 0,
        [⟨ListenerConditionConflicted, ConditionFalse, 0, ListenerReasonNoConflicts, ""⟩]⟩]⟩⟩

/-- A Gateway at generation 4 whose only top-level condition has type Ready,
reason Ready, observed generation 4 — but status False. -/
def readyStatusFalseGw : Gateway :=
  ⟨"gw", "default", 4, "kong", [], ⟨[⟨"Ready", "False", 4, "Ready", ""⟩], []⟩⟩

/-- A Gateway with 12 top-level conditions, numbered by observed generation. -/
def twelveCondGw : Gateway :=
  ⟨"gw", "default", 1, "kong", [],
    ⟨(List.range 12).map (fun i => ⟨"Ready", "True", (i : Int), "Ready", ""⟩), []⟩⟩

/-! ## Theorems -/

theorem lookupA_nil {α β : Type} [BEq α] (k : α) : lookupA ([] : List (α × β)) k = none := rfl

theorem lookupA_cons {α β : Type} [BEq α] (e : α × β) (m : List (α × β)) (k : α) :
    lookupA (e :: m) k = if e.1 == k then some e.2 else lookupA m k := by
  rcases h : (e.1 == k) with _ | _ <;>
    simp [lookupA, List.find?_cons_of_neg, List.find?_cons_of_pos, h]

theorem lookupA_filter_ne {α β : Type} [BEq α] [LawfulBEq α] (m : List (α × β)) (k k' : α)
    (h : k' ≠ k) : lookupA (m.filter (fun e => !(e.1 == k))) k' = lookupA m k' := by
  induction m with
  | nil => rfl
  | cons e rest ih =>
    rcases he : (e.1 == k) with _ | _
    · rw [List.filter_cons_of_pos (by simp [he]), lookupA_cons, lookupA_cons, ih]
    · rw [List.filter_cons_of_neg (by simp [he]), lookupA_cons, ih]
      have : (e.1 == k') = false := by
        rw [beq_eq_false_iff_ne]
        rw [beq_iff_eq] at he
        exact fun hc => h (hc.symm.trans he)
      simp [this]

theorem lookupA_insertA_self {α β : Type} [BEq α] [LawfulBEq α] (m : List (α × β)) (k : α) (v : β) :
    lookupA (insertA m k v) k = some v := by
  simp [insertA, lookupA_cons]

theorem lookupA_insertA_ne {α β : Type} [BEq α] [LawfulBEq α] (m : List (α × β)) (k k' : α) (v : β)
    (h : k' ≠ k) : lookupA (insertA m k v) k' = lookupA m k' := by
  rw [insertA, lookupA_cons]
  have : (k == k') = false := by simp; exact fun hc => h hc.symm
  simp only [this, if_false]
  exact lookupA_filter_ne m k k' h

/-- Whether a Bool-valued `List.length _ == 0` test agrees with `isEmpty`. -/
theorem length_beq_zero_eq_isEmpty {α : Type} (l : List α) : (l.length == 0) = l.isEmpty := by
  cases l <;> rfl

theorem hasCondTS_append (xs ys : List Condition) (t s : String) :
    hasCondTS (xs ++ ys) t s = (hasCondTS xs t s || hasCondTS ys t s) := by
  simp [hasCondTS]

theorem hasCond_append (xs ys : List Condition) (t s r : String) :
    hasCond (xs ++ ys) t s r = (hasCond xs t s r || hasCond ys t s r) := by
  simp [hasCond]

theorem countCondType_append (xs ys : List Condition) (t : String) :
    countCondType (xs ++ ys) t = countCondType xs t + countCondType ys t := by
  simp [countCondType]

theorem countCond_append (xs ys : List Condition) (t s r : String) :
    countCond (xs ++ ys) t s r = countCond xs t s r + countCond ys t s r := by
  simp [countCond]

/-- The conflict check emits no condition, one ProtocolConflict, or one
HostnameConflict. -/
theorem evalConflict_conds (generation : Int) (listener : Listener) (maps : ClaimMaps) :
    (evalConflict generation listener maps).conds = [] ∨
      (evalConflict generation listener maps).conds = [protocolConflictCond generation] ∨
      (evalConflict generation listener maps).conds = [hostnameConflictCond generation] := by
  unfold evalConflict
  rcases lookupA maps.portsToProtocol listener.port with _ | claimed
  · left; rfl
  · dsimp only
    split
    · right; left; rfl
    · split
      · rcases lookupA ((lookupA maps.portsToHostnames listener.port).getD [])
            (listener.hostname.getD "") with _ | owner
        · left; rfl
        · dsimp only
          split
          · left; rfl
          · right; right; rfl
      · right; left; rfl

/-- The detachment check emits one of four condition lists, each a function of
the two membership tests on the data-plane protocol map. -/
theorem detachConds_eq (protocols : List (String × List (Int × Bool))) (generation : Int)
    (listener : Listener) :
    detachConds protocols generation listener =
      (if ((lookupA protocols listener.protocol).getD []).length == 0 then
        [unsupportedProtocolCond generation] else []) ++
      (if (lookupA ((lookupA protocols listener.protocol).getD []) listener.port).isNone then
        [portUnavailableCond generation] else []) := rfl

theorem hasCondTS_detachConds_conflicted (protocols : List (String × List (Int × Bool)))
    (generation : Int) (listener : Listener) (s : String) :
    hasCondTS (detachConds protocols generation listener) ListenerConditionConflicted s = false := by
  rw [detachConds_eq, hasCondTS_append]
  split <;> split <;>
    simp [hasCondTS, unsupportedProtocolCond, portUnavailableCond, ListenerConditionConflicted,
      ListenerConditionDetached]

theorem hasCond_detachConds_conflicted (protocols : List (String × List (Int × Bool)))
    (generation : Int) (listener : Listener) (s r : String) :
    hasCond (detachConds protocols generation listener) ListenerConditionConflicted s r = false := by
  rw [detachConds_eq, hasCond_append]
  split <;> split <;>
    simp [hasCond, unsupportedProtocolCond, portUnavailableCond, ListenerConditionConflicted,
      ListenerConditionDetached]

/-- The readiness tail never adds a Conflicted condition with status True. -/
theorem hasCondTS_finishConds_conflictedTrue (generation : Int) (conds : List Condition) :
    hasCondTS (finishConds generation conds) ListenerConditionConflicted ConditionTrue =
      hasCondTS conds ListenerConditionConflicted ConditionTrue := by
  unfold finishConds
  split <;>
    simp [hasCondTS_append, hasCondTS, noConflictsCond, readyCond, pendingCond,
      ListenerConditionConflicted, ListenerConditionReady, ConditionTrue, ConditionFalse]

theorem hasCond_finishConds_conflictedTrue (generation : Int) (conds : List Condition)
    (r : String) :
    hasCond (finishConds generation conds) ListenerConditionConflicted ConditionTrue r =
      hasCond conds ListenerConditionConflicted ConditionTrue r := by
  unfold finishConds
  split <;>
    simp [hasCond_append, hasCond, noConflictsCond, readyCond, pendingCond,
      ListenerConditionConflicted, ListenerConditionReady, ConditionTrue, ConditionFalse]

/-- The readiness tail adds no Detached condition. -/
theorem countCond_finishConds_detached (generation : Int) (conds : List Condition)
    (s r : String) :
    countCond (finishConds generation conds) ListenerConditionDetached s r =
      countCond conds ListenerConditionDetached s r := by
  unfold finishConds
  split <;>
    simp [countCond_append, countCond, noConflictsCond, readyCond, pendingCond,
      ListenerConditionConflicted, ListenerConditionReady, ListenerConditionDetached]

theorem countCondType_finishConds_detached (generation : Int) (conds : List Condition) :
    countCondType (finishConds generation conds) ListenerConditionDetached =
      countCondType conds ListenerConditionDetached := by
  unfold finishConds
  split <;>
    simp [countCondType_append, countCondType, noConflictsCond, readyCond, pendingCond,
      ListenerConditionConflicted, ListenerConditionReady, ListenerConditionDetached]

/-- The four possible outputs of the detachment check. -/
theorem detachConds_cases (protocols : List (String × List (Int × Bool))) (generation : Int)
    (listener : Listener) :
    detachConds protocols generation listener = [] ∨
      detachConds protocols generation listener = [unsupportedProtocolCond generation] ∨
      detachConds protocols generation listener = [portUnavailableCond generation] ∨
      detachConds protocols generation listener =
        [unsupportedProtocolCond generation, portUnavailableCond generation] := by
  rw [detachConds_eq]
  split <;> split <;> simp

theorem buildProtocols_isEmpty_aux (kongListens : List Listener)
    (acc : List (String × List (Int × Bool))) (proto : String) :
    ((lookupA (kongListens.foldl
        (fun protocols listen =>
          insertA protocols listen.protocol
            (insertA ((lookupA protocols listen.protocol).getD []) listen.port true))
        acc) proto).getD []).isEmpty =
      (!(kongListens.any fun l => l.protocol == proto) &&
        ((lookupA acc proto).getD []).isEmpty) := by
  induction kongListens generalizing acc with
  | nil => simp
  | cons listen rest ih =>
    rw [List.foldl_cons, ih]
    by_cases h : listen.protocol = proto
    · rw [h, lookupA_insertA_self]
      simp [insertA, h]
    · rw [lookupA_insertA_ne _ _ _ _ (fun hc => h hc.symm)]
      have hb : (listen.protocol == proto) = false := by rw [beq_eq_false_iff_ne]; exact h
      simp [hb]

theorem buildProtocols_portSome_aux (kongListens : List Listener)
    (acc : List (String × List (Int × Bool))) (proto : String) (port : Int) :
    (lookupA ((lookupA (kongListens.foldl
        (fun protocols listen =>
          insertA protocols listen.protocol
            (insertA ((lookupA protocols listen.protocol).getD []) listen.port true))
        acc) proto).getD []) port).isSome =
      ((kongListens.any fun l => l.protocol == proto && l.port == port) ||
        (lookupA ((lookupA acc proto).getD []) port).isSome) := by
  induction kongListens generalizing acc with
  | nil => simp
  | cons listen rest ih =>
    rw [List.foldl_cons, ih]
    by_cases h : listen.protocol = proto
    · rw [h, lookupA_insertA_self]
      simp only [Option.getD_some]
      by_cases hp : listen.port = port
      · rw [hp, lookupA_insertA_self]
        simp [h, hp]
      · rw [lookupA_insertA_ne _ _ _ _ (fun hc => hp hc.symm)]
        have hb : (listen.port == port) = false := by rw [beq_eq_false_iff_ne]; exact hp
        simp [hb, h]
    · rw [lookupA_insertA_ne _ _ _ _ (fun hc => h hc.symm)]
      have hb : (listen.protocol == proto) = false := by rw [beq_eq_false_iff_ne]; exact h
      simp [hb]

/-- `protocols[proto]` is empty iff no data-plane listen has protocol `proto`. -/
theorem buildProtocols_isEmpty (kongListens : List Listener) (proto : String) :
    ((lookupA (buildProtocols kongListens) proto).getD []).isEmpty =
      !(kongListens.any fun l => l.protocol == proto) := by
  simpa [lookupA] using buildProtocols_isEmpty_aux kongListens [] proto

/-- `protocols[proto][port]` is present iff some data-plane listen has the
protocol and the port. -/
theorem buildProtocols_portSome (kongListens : List Listener) (proto : String) (port : Int) :
    (lookupA ((lookupA (buildProtocols kongListens) proto).getD []) port).isSome =
      (kongListens.any fun l => l.protocol == proto && l.port == port) := by
  simpa [lookupA] using buildProtocols_portSome_aux kongListens [] proto port

theorem evalListener_condTypeBounds (generation : Int)
    (protocols : List (String × List (Int × Bool))) (existing : List (String × ListenerStatus))
    (maps : ClaimMaps) (listener : Listener) :
    condTypeBoundsOK (evalListener generation protocols existing maps listener).2 = true := by
  have hst : (evalListener generation protocols existing maps listener).2.conditions =
      finishConds generation
        ((evalConflict generation listener maps).conds ++
          detachConds protocols generation listener) := rfl
  rw [condTypeBoundsOK, hst]
  rcases evalConflict_conds generation listener maps with h | h | h <;>
    rcases detachConds_cases protocols generation listener with h2 | h2 | h2 | h2 <;>
      rw [h, h2] <;>
      simp [finishConds, countCondType, protocolConflictCond, hostnameConflictCond,
        unsupportedProtocolCond, portUnavailableCond, noConflictsCond, readyCond, pendingCond,
        ListenerConditionConflicted, ListenerConditionReady, ListenerConditionDetached]

theorem evalListeners_condTypeBounds (generation : Int)
    (protocols : List (String × List (Int × Bool))) (existing : List (String × ListenerStatus))
    (maps : ClaimMaps) (listeners : List Listener) :
    ((evalListeners generation protocols existing maps listeners).all condTypeBoundsOK) = true := by
  induction listeners generalizing maps with
  | nil => rfl
  | cons listener rest ih =>
    have hcons : evalListeners generation protocols existing maps (listener :: rest) =
        (evalListener generation protocols existing maps listener).2 ::
          evalListeners generation protocols existing
            (evalListener generation protocols existing maps listener).1 rest := rfl
    rw [hcons, List.all_cons, evalListener_condTypeBounds, ih, Bool.and_self]

/-- C2 counterexample: with no data-plane listens, the single listener's status
carries two conditions of type Detached (UnsupportedProtocol and
PortUnavailable), refuting "at most one Condition of each type". -/
theorem getListenerStatus_two_detached :
    (getListenerStatus udpOnlyGw []).map
        (fun st => countCondType st.conditions ListenerConditionDetached) = [2] := by
  decide

/-- C2 (amended): every listener status returned by the reconciler contains at
most one Conflicted condition and at most one Ready condition, but may contain
up to two Detached conditions (both detachment checks fire when the requested
protocol has no data-plane listens at all). -/
theorem getListenerStatus_condTypeBounds (gateway : Gateway) (kongListens : List Listener) :
    ((getListenerStatus gateway kongListens).all condTypeBoundsOK) = true :=
  evalListeners_condTypeBounds gateway.generation (buildProtocols kongListens)
    (buildExisting gateway.status.listeners)
    (preseedPass (buildExisting gateway.status.listeners) gateway.listeners) gateway.listeners

theorem evalConflict_countCond_detached (generation : Int) (listener : Listener)
    (maps : ClaimMaps) (s r : String) :
    countCond (evalConflict generation listener maps).conds ListenerConditionDetached s r = 0 := by
  rcases evalConflict_conds generation listener maps with h | h | h <;> rw [h] <;>
    simp [countCond, protocolConflictCond, hostnameConflictCond, ListenerConditionConflicted,
      ListenerConditionDetached]

theorem evalConflict_countCondType_detached (generation : Int) (listener : Listener)
    (maps : ClaimMaps) :
    countCondType (evalConflict generation listener maps).conds ListenerConditionDetached = 0 := by
  rcases evalConflict_conds generation listener maps with h | h | h <;> rw [h] <;>
    simp [countCondType, protocolConflictCond, hostnameConflictCond, ListenerConditionConflicted,
      ListenerConditionDetached]

theorem isNone_eq_not_isSome {α : Type} (o : Option α) : o.isNone = !o.isSome := by
  cases o <;> rfl

theorem evalListener_detachSpec (generation : Int) (kongListens : List Listener)
    (existing : List (String × ListenerStatus)) (maps : ClaimMaps) (listener : Listener) :
    detachSpecOK kongListens listener
      (evalListener generation (buildProtocols kongListens) existing maps listener).2 = true := by
  have hst : (evalListener generation (buildProtocols kongListens) existing maps listener).2.conditions =
      finishConds generation
        ((evalConflict generation listener maps).conds ++
          detachConds (buildProtocols kongListens) generation listener) := rfl
  have hb1 : (((lookupA (buildProtocols kongListens) listener.protocol).getD []).length == 0) =
      !(kongListens.any fun l => l.protocol == listener.protocol) := by
    rw [length_beq_zero_eq_isEmpty, buildProtocols_isEmpty]
  have hb2 : (lookupA ((lookupA (buildProtocols kongListens) listener.protocol).getD [])
        listener.port).isNone =
      !(kongListens.any fun l => l.protocol == listener.protocol && l.port == listener.port) := by
    rw [isNone_eq_not_isSome, buildProtocols_portSome]
  simp only [detachSpecOK, hst, countCond_finishConds_detached, countCondType_finishConds_detached,
    countCond_append, countCondType_append, evalConflict_countCond_detached,
    evalConflict_countCondType_detached, Nat.zero_add, detachConds_eq, hb1, hb2]
  rcases hA : (kongListens.any fun l => l.protocol == listener.protocol) with _ | _ <;>
    rcases hB : (kongListens.any fun l =>
        l.protocol == listener.protocol && l.port == listener.port) with _ | _ <;>
      simp [hA, hB, countCond, countCondType, unsupportedProtocolCond, portUnavailableCond,
        ListenerConditionDetached, ConditionTrue, ListenerReasonUnsupportedProtocol,
        ListenerReasonPortUnavailable]

theorem evalListeners_detachSpec (generation : Int) (kongListens : List Listener)
    (existing : List (String × ListenerStatus)) (maps : ClaimMaps) (listeners : List Listener) :
    ((listeners.zip
        (evalListeners generation (buildProtocols kongListens) existing maps listeners)).all
      fun pair => detachSpecOK kongListens pair.1 pair.2) = true := by
  induction listeners generalizing maps with
  | nil => rfl
  | cons listener rest ih =>
    have hcons : evalListeners generation (buildProtocols kongListens) existing maps
        (listener :: rest) =
        (evalListener generation (buildProtocols kongListens) existing maps listener).2 ::
          evalListeners generation (buildProtocols kongListens) existing
            (evalListener generation (buildProtocols kongListens) existing maps listener).1
            rest := rfl
    rw [hcons, List.zip_cons_cons, List.all_cons, evalListener_detachSpec, ih, Bool.and_self]

/-- C3 counterexample: with zero data-plane listens of the listener's protocol,
the two Detached outcomes are NOT mutually exclusive — the listener gets both
Detached=True (UnsupportedProtocol) and Detached=True (PortUnavailable),
because the code runs the two checks as independent `if`s. -/
theorem getListenerStatus_detached_not_exclusive :
    (getListenerStatus httpOnlyGw []).map (fun st =>
      (hasCond st.conditions ListenerConditionDetached ConditionTrue
        ListenerReasonUnsupportedProtocol,
       hasCond st.conditions ListenerConditionDetached ConditionTrue
        ListenerReasonPortUnavailable)) = [(true, true)] := by
  decide

/-- C3 (amended): for every listener, if the data plane has zero listens of the
listener's protocol, the status gets BOTH Detached=True (UnsupportedProtocol)
and Detached=True (PortUnavailable); if listens of the protocol exist but none
on the requested port, it gets exactly one Detached condition, with reason
PortUnavailable; and if protocol and port are both present it gets no Detached
condition at all. -/
theorem getListenerStatus_detachment (gateway : Gateway) (kongListens : List Listener) :
    ((gateway.listeners.zip (getListenerStatus gateway kongListens)).all
      fun pair => detachSpecOK kongListens pair.1 pair.2) = true :=
  evalListeners_detachSpec gateway.generation kongListens
    (buildExisting gateway.status.listeners)
    (preseedPass (buildExisting gateway.status.listeners) gateway.listeners) gateway.listeners

/-- The Conflicted=True content of a listener status equals that of its
conflict-check conditions: the detachment and readiness conditions contribute
no Conflicted=True condition. -/
theorem hasCondTS_evalListener (generation : Int) (protocols : List (String × List (Int × Bool)))
    (existing : List (String × ListenerStatus)) (maps : ClaimMaps) (listener : Listener) :
    hasCondTS (evalListener generation protocols existing maps listener).2.conditions
        ListenerConditionConflicted ConditionTrue =
      hasCondTS (evalConflict generation listener maps).conds
        ListenerConditionConflicted ConditionTrue := by
  have hst : (evalListener generation protocols existing maps listener).2.conditions =
      finishConds generation
        ((evalConflict generation listener maps).conds ++
          detachConds protocols generation listener) := rfl
  rw [hst, hasCondTS_finishConds_conflictedTrue, hasCondTS_append,
    hasCondTS_detachConds_conflicted, Bool.or_false]

theorem hasCond_evalListener (generation : Int) (protocols : List (String × List (Int × Bool)))
    (existing : List (String × ListenerStatus)) (maps : ClaimMaps) (listener : Listener)
    (r : String) :
    hasCond (evalListener generation protocols existing maps listener).2.conditions
        ListenerConditionConflicted ConditionTrue r =
      hasCond (evalConflict generation listener maps).conds
        ListenerConditionConflicted ConditionTrue r := by
  have hst : (evalListener generation protocols existing maps listener).2.conditions =
      finishConds generation
        ((evalConflict generation listener maps).conds ++
          detachConds protocols generation listener) := rfl
  rw [hst, hasCond_finishConds_conflictedTrue, hasCond_append,
    hasCond_detachConds_conflicted, Bool.or_false]

/-- Unfolding of the evaluation pass on a two-listener spec. -/
theorem evalListeners_two (generation : Int) (protocols : List (String × List (Int × Bool)))
    (existing : List (String × ListenerStatus)) (maps : ClaimMaps) (A B : Listener) :
    evalListeners generation protocols existing maps [A, B] =
      [(evalListener generation protocols existing maps A).2,
       (evalListener generation protocols existing
          (evalListener generation protocols existing maps A).1 B).2] := rfl

/-- C4 counterexample: a Gateway with empty previous status, a TCP listener and
an HTTP listener both on port 80 (TCP first): the TCP listener — which claims
the port first — receives NO Conflicted=True condition; only the second
listener is marked conflicted.  This refutes "both listeners get
Conflicted=True with reason ProtocolConflict". -/
theorem getListenerStatus_tcp_first_unconflicted :
    (getListenerStatus ⟨"gw", "default", 0, "kong",
        [⟨"t", none, 80, TCPProtocolType⟩, ⟨"w", none, 80, HTTPProtocolType⟩], ⟨[], []⟩⟩ []).map
      (fun st => hasCondTS st.conditions ListenerConditionConflicted ConditionTrue) =
      [false, true] := by
  decide

/-- C4 (amended): for a Gateway with empty previous status holding a TCP
listener and an HTTP listener on the same port, in either order, the listener
occurring second in spec order gets Conflicted=True with reason
ProtocolConflict, while the listener occurring first (which claims the port)
gets no Conflicted=True condition. -/
theorem getListenerStatus_tcp_http_conflict (p gen : Int) (na nb : String)
    (ha hb : Option String) (kongListens : List Listener) :
    ((getListenerStatus ⟨"gw", "ns", gen, "cls",
        [⟨na, ha, p, TCPProtocolType⟩, ⟨nb, hb, p, HTTPProtocolType⟩], ⟨[], []⟩⟩
        kongListens).map
      (fun st => (hasCondTS st.conditions ListenerConditionConflicted ConditionTrue,
        hasCond st.conditions ListenerConditionConflicted ConditionTrue
          ListenerReasonProtocolConflict)) = [(false, false), (true, true)]) ∧
    ((getListenerStatus ⟨"gw", "ns", gen, "cls",
        [⟨nb, hb, p, HTTPProtocolType⟩, ⟨na, ha, p, TCPProtocolType⟩], ⟨[], []⟩⟩
        kongListens).map
      (fun st => (hasCondTS st.conditions ListenerConditionConflicted ConditionTrue,
        hasCond st.conditions ListenerConditionConflicted ConditionTrue
          ListenerReasonProtocolConflict)) = [(false, false), (true, true)]) := by
  constructor
  · have hg : getListenerStatus ⟨"gw", "ns", gen, "cls",
          [⟨na, ha, p, TCPProtocolType⟩, ⟨nb, hb, p, HTTPProtocolType⟩], ⟨[], []⟩⟩ kongListens =
        evalListeners gen (buildProtocols kongListens) [] ⟨[], []⟩
          [⟨na, ha, p, TCPProtocolType⟩, ⟨nb, hb, p, HTTPProtocolType⟩] := rfl
    have hA : evalConflict gen ⟨na, ha, p, TCPProtocolType⟩ ⟨[], []⟩ =
        ⟨⟨[(p, TCPProtocolType)], []⟩, []⟩ := rfl
    have hm1 : (evalListener gen (buildProtocols kongListens) [] ⟨[], []⟩
          ⟨na, ha, p, TCPProtocolType⟩).1 = ⟨[(p, TCPProtocolType)], []⟩ := by
      rw [show (evalListener gen (buildProtocols kongListens) [] ⟨[], []⟩
          ⟨na, ha, p, TCPProtocolType⟩).1 =
        (evalConflict gen ⟨na, ha, p, TCPProtocolType⟩ ⟨[], []⟩).maps from rfl, hA]
    have hB : evalConflict gen ⟨nb, hb, p, HTTPProtocolType⟩ ⟨[(p, TCPProtocolType)], []⟩ =
        ⟨⟨[(p, TCPProtocolType)], []⟩, [protocolConflictCond gen]⟩ := by
      simp [evalConflict, lookupA_cons, TCPProtocolType, UDPProtocolType, HTTPProtocolType,
        HTTPSProtocolType, TLSProtocolType]
    rw [hg, evalListeners_two, List.map_cons, List.map_cons, List.map_nil, hm1,
      hasCondTS_evalListener, hasCond_evalListener, hasCondTS_evalListener,
      hasCond_evalListener, hA, hB]
    simp [hasCondTS, hasCond, protocolConflictCond]
  · have hg : getListenerStatus ⟨"gw", "ns", gen, "cls",
          [⟨nb, hb, p, HTTPProtocolType⟩, ⟨na, ha, p, TCPProtocolType⟩], ⟨[], []⟩⟩ kongListens =
        evalListeners gen (buildProtocols kongListens) [] ⟨[], []⟩
          [⟨nb, hb, p, HTTPProtocolType⟩, ⟨na, ha, p, TCPProtocolType⟩] := rfl
    have hB : evalConflict gen ⟨nb, hb, p, HTTPProtocolType⟩ ⟨[], []⟩ =
        ⟨⟨[(p, HTTPProtocolType)], []⟩, []⟩ := rfl
    have hm1 : (evalListener gen (buildProtocols kongListens) [] ⟨[], []⟩
          ⟨nb, hb, p, HTTPProtocolType⟩).1 = ⟨[(p, HTTPProtocolType)], []⟩ := by
      rw [show (evalListener gen (buildProtocols kongListens) [] ⟨[], []⟩
          ⟨nb, hb, p, HTTPProtocolType⟩).1 =
        (evalConflict gen ⟨nb, hb, p, HTTPProtocolType⟩ ⟨[], []⟩).maps from rfl, hB]
    have hA : evalConflict gen ⟨na, ha, p, TCPProtocolType⟩ ⟨[(p, HTTPProtocolType)], []⟩ =
        ⟨⟨[(p, HTTPProtocolType)], []⟩, [protocolConflictCond gen]⟩ := by
      simp [evalConflict, lookupA_cons, TCPProtocolType, UDPProtocolType, HTTPProtocolType,
        HTTPSProtocolType, TLSProtocolType]
    rw [hg, evalListeners_two, List.map_cons, List.map_cons, List.map_nil, hm1,
      hasCondTS_evalListener, hasCond_evalListener, hasCondTS_evalListener,
      hasCond_evalListener, hB, hA]
    simp [hasCondTS, hasCond, protocolConflictCond]

/-- C5 counterexample: listeners A and B of the HTTP(S)/TLS family on the same
port with the same hostname, A carrying a previous Conflicted=False condition
and B none — but with A HTTP and B HTTPS.  B receives Conflicted=True with
reason ProtocolConflict, not HostnameConflict, refuting the claim for this
instance of its quantification. -/
theorem getListenerStatus_mixed_proto_not_hostname_conflict :
    (getListenerStatus mixedProtoPrevGw []).map (fun st =>
      (hasCond st.conditions ListenerConditionConflicted ConditionTrue
        ListenerReasonHostnameConflict,
       hasCond st.conditions ListenerConditionConflicted ConditionTrue
        ListenerReasonProtocolConflict)) = [(false, false), (false, true)] := by
  decide

/-- Shared helper: for listeners A and B with compatible protocols on the same
port with the same normalised hostname, where the previous status has a
Conflicted=False condition for A and nothing for B, A stays free of any
Conflicted=True condition and B gets Conflicted=True (HostnameConflict), in
either spec order.  Hypotheses are at the Bool level of the code's tests. -/
theorem preseeded_hostname_conflict_helper (p gen ar : Int) (ha hb : Option String)
    (protoA protoB na nb : String) (kongListens : List Listener) (c0 : Condition)
    (hfamA : (protoA == HTTPProtocolType || protoA == HTTPSProtocolType ||
      protoA == TLSProtocolType) = true)
    (hnotTU : (protoA == TCPProtocolType || protoA == UDPProtocolType) = false)
    (hcompatB : (protoA == protoB ||
      (protoB == HTTPSProtocolType && protoA == TLSProtocolType) ||
      (protoB == TLSProtocolType && protoA == HTTPSProtocolType)) = true)
    (hne' : (na == nb) = false)
    (hc0 : (c0.type == ListenerConditionConflicted && c0.status == ConditionFalse) = true)
    (hh : hb.getD "" = ha.getD "") :
    ((getListenerStatus ⟨"gw", "ns", gen, "cls",
        [⟨na, ha, p, protoA⟩, ⟨nb, hb, p, protoB⟩],
        ⟨[], [⟨na, supportedRouteGroupKinds, ar, [c0]⟩]⟩⟩ kongListens).map
      (fun st => (hasCondTS st.conditions ListenerConditionConflicted ConditionTrue,
        hasCond st.conditions ListenerConditionConflicted ConditionTrue
          ListenerReasonHostnameConflict)) = [(false, false), (true, true)]) ∧
    ((getListenerStatus ⟨"gw", "ns", gen, "cls",
        [⟨nb, hb, p, protoB⟩, ⟨na, ha, p, protoA⟩],
        ⟨[], [⟨na, supportedRouteGroupKinds, ar, [c0]⟩]⟩⟩ kongListens).map
      (fun st => (hasCondTS st.conditions ListenerConditionConflicted ConditionTrue,
        hasCond st.conditions ListenerConditionConflicted ConditionTrue
          ListenerReasonHostnameConflict)) = [(true, true), (false, false)]) := by
  have hpreA : preseedListener [(na, ⟨na, supportedRouteGroupKinds, ar, [c0]⟩)] ⟨[], []⟩
      ⟨na, ha, p, protoA⟩ = ⟨[(p, protoA)], [(p, [(ha.getD "", na)])]⟩ := by
    simp [preseedListener, lookupA_cons, preseedCondition, hc0, hfamA, insertA, lookupA]
  have hpreB : ∀ maps : ClaimMaps,
      preseedListener [(na, ⟨na, supportedRouteGroupKinds, ar, [c0]⟩)] maps
        ⟨nb, hb, p, protoB⟩ = maps := by
    intro maps
    simp [preseedListener, lookupA_cons, hne', lookupA]
  have hcA : evalConflict gen ⟨na, ha, p, protoA⟩
      ⟨[(p, protoA)], [(p, [(ha.getD "", na)])]⟩ =
      ⟨⟨[(p, protoA)], [(p, [(ha.getD "", na)])]⟩, []⟩ := by
    simp [evalConflict, lookupA_cons, hnotTU]
  have hcB : evalConflict gen ⟨nb, hb, p, protoB⟩
      ⟨[(p, protoA)], [(p, [(ha.getD "", na)])]⟩ =
      ⟨⟨[(p, protoA)], [(p, [(ha.getD "", na)])]⟩, [hostnameConflictCond gen]⟩ := by
    simp [evalConflict, lookupA_cons, hnotTU, hcompatB, hh, hne']
  refine ⟨?_, ?_⟩
  · have hg : getListenerStatus ⟨"gw", "ns", gen, "cls",
        [⟨na, ha, p, protoA⟩, ⟨nb, hb, p, protoB⟩],
        ⟨[], [⟨na, supportedRouteGroupKinds, ar, [c0]⟩]⟩⟩ kongListens =
        evalListeners gen (buildProtocols kongListens)
          [(na, ⟨na, supportedRouteGroupKinds, ar, [c0]⟩)]
          (preseedPass [(na, ⟨na, supportedRouteGroupKinds, ar, [c0]⟩)]
            [⟨na, ha, p, protoA⟩, ⟨nb, hb, p, protoB⟩])
          [⟨na, ha, p, protoA⟩, ⟨nb, hb, p, protoB⟩] := rfl
    have hpre : preseedPass [(na, ⟨na, supportedRouteGroupKinds, ar, [c0]⟩)]
        [⟨na, ha, p, protoA⟩, ⟨nb, hb, p, protoB⟩] =
        ⟨[(p, protoA)], [(p, [(ha.getD "", na)])]⟩ := by
      rw [preseedPass, List.foldl_cons, List.foldl_cons, List.foldl_nil, hpreA, hpreB]
    have hm1 : (evalListener gen (buildProtocols kongListens)
        [(na, ⟨na, supportedRouteGroupKinds, ar, [c0]⟩)]
        ⟨[(p, protoA)], [(p, [(ha.getD "", na)])]⟩ ⟨na, ha, p, protoA⟩).1 =
        ⟨[(p, protoA)], [(p, [(ha.getD "", na)])]⟩ := by
      rw [show (evalListener gen (buildProtocols kongListens)
          [(na, ⟨na, supportedRouteGroupKinds, ar, [c0]⟩)]
          ⟨[(p, protoA)], [(p, [(ha.getD "", na)])]⟩ ⟨na, ha, p, protoA⟩).1 =
        (evalConflict gen ⟨na, ha, p, protoA⟩
          ⟨[(p, protoA)], [(p, [(ha.getD "", na)])]⟩).maps from rfl, hcA]
    rw [hg, hpre, evalListeners_two, List.map_cons, List.map_cons, List.map_nil, hm1,
      hasCondTS_evalListener, hasCond_evalListener, hasCondTS_evalListener,
      hasCond_evalListener, hcA, hcB]
    simp [hasCondTS, hasCond, hostnameConflictCond]
  · have hg : getListenerStatus ⟨"gw", "ns", gen, "cls",
        [⟨nb, hb, p, protoB⟩, ⟨na, ha, p, protoA⟩],
        ⟨[], [⟨na, supportedRouteGroupKinds, ar, [c0]⟩]⟩⟩ kongListens =
        evalListeners gen (buildProtocols kongListens)
          [(na, ⟨na, supportedRouteGroupKinds, ar, [c0]⟩)]
          (preseedPass [(na, ⟨na, supportedRouteGroupKinds, ar, [c0]⟩)]
            [⟨nb, hb, p, protoB⟩, ⟨na, ha, p, protoA⟩])
          [⟨nb, hb, p, protoB⟩, ⟨na, ha, p, protoA⟩] := rfl
    have hpre : preseedPass [(na, ⟨na, supportedRouteGroupKinds, ar, [c0]⟩)]
        [⟨nb, hb, p, protoB⟩, ⟨na, ha, p, protoA⟩] =
        ⟨[(p, protoA)], [(p, [(ha.getD "", na)])]⟩ := by
      rw [preseedPass, List.foldl_cons, List.foldl_cons, List.foldl_nil, hpreB, hpreA]
    have hm1 : (evalListener gen (buildProtocols kongListens)
        [(na, ⟨na, supportedRouteGroupKinds, ar, [c0]⟩)]
        ⟨[(p, protoA)], [(p, [(ha.getD "", na)])]⟩ ⟨nb, hb, p, protoB⟩).1 =
        ⟨[(p, protoA)], [(p, [(ha.getD "", na)])]⟩ := by
      rw [show (evalListener gen (buildProtocols kongListens)
          [(na, ⟨na, supportedRouteGroupKinds, ar, [c0]⟩)]
          ⟨[(p, protoA)], [(p, [(ha.getD "", na)])]⟩ ⟨nb, hb, p, protoB⟩).1 =
        (evalConflict gen ⟨nb, hb, p, protoB⟩
          ⟨[(p, protoA)], [(p, [(ha.getD "", na)])]⟩).maps from rfl, hcB]
    rw [hg, hpre, evalListeners_two, List.map_cons, List.map_cons, List.map_nil, hm1,
      hasCondTS_evalListener, hasCond_evalListener, hasCondTS_evalListener,
      hasCond_evalListener, hcB, hcA]
    simp [hasCondTS, hasCond, hostnameConflictCond]

/-- Shared helper: with empty previous status, two HTTPS listeners on the same
port get no Conflicted=True condition, whatever their hostnames: the first
listener claims the port (recording no hostname), and the second finds its
(port, hostname) pair unclaimed. -/
theorem two_https_emptyPrev_unconflicted (gen p : Int) (kongListens : List Listener)
    (na nb : String) (ha hb : Option String) :
    (getListenerStatus ⟨"gw", "ns", gen, "cls",
        [⟨na, ha, p, HTTPSProtocolType⟩, ⟨nb, hb, p, HTTPSProtocolType⟩],
        ⟨[], []⟩⟩ kongListens).map
      (fun st => hasCondTS st.conditions ListenerConditionConflicted ConditionTrue) =
      [false, false] := by
  have hg : getListenerStatus ⟨"gw", "ns", gen, "cls",
      [⟨na, ha, p, HTTPSProtocolType⟩, ⟨nb, hb, p, HTTPSProtocolType⟩],
      ⟨[], []⟩⟩ kongListens =
      evalListeners gen (buildProtocols kongListens) [] ⟨[], []⟩
        [⟨na, ha, p, HTTPSProtocolType⟩, ⟨nb, hb, p, HTTPSProtocolType⟩] := rfl
  have hcX : evalConflict gen ⟨na, ha, p, HTTPSProtocolType⟩ ⟨[], []⟩ =
      ⟨⟨[(p, HTTPSProtocolType)], []⟩, []⟩ := rfl
  have hm1 : (evalListener gen (buildProtocols kongListens) [] ⟨[], []⟩
      ⟨na, ha, p, HTTPSProtocolType⟩).1 = ⟨[(p, HTTPSProtocolType)], []⟩ := by
    rw [show (evalListener gen (buildProtocols kongListens) [] ⟨[], []⟩
        ⟨na, ha, p, HTTPSProtocolType⟩).1 =
      (evalConflict gen ⟨na, ha, p, HTTPSProtocolType⟩ ⟨[], []⟩).maps from rfl, hcX]
  have hcY : evalConflict gen ⟨nb, hb, p, HTTPSProtocolType⟩ ⟨[(p, HTTPSProtocolType)], []⟩ =
      ⟨⟨[(p, HTTPSProtocolType)], [(p, [(hb.getD "", nb)])]⟩, []⟩ := by
    simp [evalConflict, lookupA_cons, insertA, lookupA, HTTPSProtocolType, TCPProtocolType,
      UDPProtocolType]
  rw [hg, evalListeners_two, List.map_cons, List.map_cons, List.map_nil, hm1,
    hasCondTS_evalListener, hasCondTS_evalListener, hcX, hcY]
  simp [hasCondTS]

/-- C5 (amended): for listeners A and B with compatible HTTP(S)/TLS-family
protocols (the same protocol, or one HTTPS and one TLS) on the same port with
the same normalised hostname, where the previous status has a Conflicted=False
condition for A and nothing for B: A stays free of any Conflicted=True
condition and B gets Conflicted=True with reason HostnameConflict, in either
spec order. -/
theorem getListenerStatus_precedence_stability (p gen ar : Int) (ha hb : Option String)
    (protoA protoB na nb : String) (kongListens : List Listener) (c0 : Condition)
    (hfam : protoA = HTTPProtocolType ∨ protoA = HTTPSProtocolType ∨ protoA = TLSProtocolType)
    (hcompat : protoB = protoA ∨ (protoA = HTTPSProtocolType ∧ protoB = TLSProtocolType) ∨
      (protoA = TLSProtocolType ∧ protoB = HTTPSProtocolType))
    (hnames : na ≠ nb)
    (hh : hb.getD "" = ha.getD "")
    (hts : c0.type = ListenerConditionConflicted) (hcs : c0.status = ConditionFalse) :
    ((getListenerStatus ⟨"gw", "ns", gen, "cls",
        [⟨na, ha, p, protoA⟩, ⟨nb, hb, p, protoB⟩],
        ⟨[], [⟨na, supportedRouteGroupKinds, ar, [c0]⟩]⟩⟩ kongListens).map
      (fun st => (hasCondTS st.conditions ListenerConditionConflicted ConditionTrue,
        hasCond st.conditions ListenerConditionConflicted ConditionTrue
          ListenerReasonHostnameConflict)) = [(false, false), (true, true)]) ∧
    ((getListenerStatus ⟨"gw", "ns", gen, "cls",
        [⟨nb, hb, p, protoB⟩, ⟨na, ha, p, protoA⟩],
        ⟨[], [⟨na, supportedRouteGroupKinds, ar, [c0]⟩]⟩⟩ kongListens).map
      (fun st => (hasCondTS st.conditions ListenerConditionConflicted ConditionTrue,
        hasCond st.conditions ListenerConditionConflicted ConditionTrue
          ListenerReasonHostnameConflict)) = [(true, true), (false, false)]) := by
  have hne' : (na == nb) = false := by rw [beq_eq_false_iff_ne]; exact hnames
  have hc0 : (c0.type == ListenerConditionConflicted && c0.status == ConditionFalse) = true := by
    simp [hts, hcs]
  have hfamA : (protoA == HTTPProtocolType || protoA == HTTPSProtocolType ||
      protoA == TLSProtocolType) = true := by
    rcases hfam with h | h | h <;> simp [h]
  have hnotTU : (protoA == TCPProtocolType || protoA == UDPProtocolType) = false := by
    rcases hfam with h | h | h <;>
      simp [h, HTTPProtocolType, HTTPSProtocolType, TLSProtocolType, TCPProtocolType,
        UDPProtocolType]
  have hcompatB : (protoA == protoB ||
      (protoB == HTTPSProtocolType && protoA == TLSProtocolType) ||
      (protoB == TLSProtocolType && protoA == HTTPSProtocolType)) = true := by
    rcases hcompat with h | ⟨h1, h2⟩ | ⟨h1, h2⟩
    · simp [h]
    · simp [h1, h2, HTTPSProtocolType, TLSProtocolType]
    · simp [h1, h2, HTTPSProtocolType, TLSProtocolType]
  exact preseeded_hostname_conflict_helper p gen ar ha hb protoA protoB na nb kongListens c0
    hfamA hnotTU hcompatB hne' hc0 hh

/-- C5 witness: the amended precedence-stability theorem at a concrete input
(two HTTPS listeners on port 80 with hostname h.com, the first with a previous
Conflicted=False condition). -/
theorem getListenerStatus_precedence_stability_witness :
    ((getListenerStatus ⟨"gw", "ns", 1, "cls",
        [⟨"a", some "h.com", 80, HTTPSProtocolType⟩, ⟨"b", some "h.com", 80, HTTPSProtocolType⟩],
        ⟨[], [⟨"a", supportedRouteGroupKinds, 0,
          [⟨ListenerConditionConflicted, ConditionFalse, 0, ListenerReasonNoConflicts, ""⟩]⟩]⟩⟩
        []).map
      (fun st => (hasCondTS st.conditions ListenerConditionConflicted ConditionTrue,
        hasCond st.conditions ListenerConditionConflicted ConditionTrue
          ListenerReasonHostnameConflict)) = [(false, false), (true, true)]) ∧
    ((getListenerStatus ⟨"gw", "ns", 1, "cls",
        [⟨"b", some "h.com", 80, HTTPSProtocolType⟩, ⟨"a", some "h.com", 80, HTTPSProtocolType⟩],
        ⟨[], [⟨"a", supportedRouteGroupKinds, 0,
          [⟨ListenerConditionConflicted, ConditionFalse, 0, ListenerReasonNoConflicts, ""⟩]⟩]⟩⟩
        []).map
      (fun st => (hasCondTS st.conditions ListenerConditionConflicted ConditionTrue,
        hasCond st.conditions ListenerConditionConflicted ConditionTrue
          ListenerReasonHostnameConflict)) = [(true, true), (false, false)]) :=
  getListenerStatus_precedence_stability 80 1 0 (some "h.com") (some "h.com")
    HTTPSProtocolType HTTPSProtocolType "a" "b" []
    ⟨ListenerConditionConflicted, ConditionFalse, 0, ListenerReasonNoConflicts, ""⟩
    (Or.inr (Or.inl rfl)) (Or.inl rfl) (by decide) rfl rfl rfl

/-- C6 counterexample: with empty previous status, two HTTPS listeners on the
same port both with hostname a.com produce NO Conflicted=True condition for
either listener — the first listener claims only the port, never its hostname,
so the second listener's hostname claim finds the pair unclaimed.  This refutes
"two HTTPS listeners both with hostname a.com produce a Conflicted=True
condition with reason HostnameConflict". -/
theorem getListenerStatus_same_hostname_unconflicted :
    (getListenerStatus doubleAcomGw []).map
      (fun st => hasCondTS st.conditions ListenerConditionConflicted ConditionTrue) =
      [false, false] := by
  decide

/-- C6 (amended): for a Gateway with empty previous status, two HTTPS listeners
on the same port with hostnames a.com and unset produce no Conflicted=True
condition for either listener (either order) — and two HTTPS listeners both
with hostname a.com ALSO produce no Conflicted=True condition for either
listener (either order): during the first reconciliation the port-claiming
listener never records its hostname.  A HostnameConflict arises only once the
first listener's claim is pre-seeded from a previous Conflicted=False status,
in which case the second a.com listener gets Conflicted=True
(HostnameConflict). -/
theorem getListenerStatus_hostname_uniqueness (p gen ar : Int) (na nb : String)
    (kongListens : List Listener) (c0 : Condition)
    (hnames : na ≠ nb)
    (hts : c0.type = ListenerConditionConflicted) (hcs : c0.status = ConditionFalse) :
    ((getListenerStatus ⟨"gw", "ns", gen, "cls",
        [⟨na, some "a.com", p, HTTPSProtocolType⟩, ⟨nb, none, p, HTTPSProtocolType⟩],
        ⟨[], []⟩⟩ kongListens).map
      (fun st => hasCondTS st.conditions ListenerConditionConflicted ConditionTrue) =
      [false, false]) ∧
    ((getListenerStatus ⟨"gw", "ns", gen, "cls",
        [⟨nb, none, p, HTTPSProtocolType⟩, ⟨na, some "a.com", p, HTTPSProtocolType⟩],
        ⟨[], []⟩⟩ kongListens).map
      (fun st => hasCondTS st.conditions ListenerConditionConflicted ConditionTrue) =
      [false, false]) ∧
    ((getListenerStatus ⟨"gw", "ns", gen, "cls",
        [⟨na, some "a.com", p, HTTPSProtocolType⟩, ⟨nb, some "a.com", p, HTTPSProtocolType⟩],
        ⟨[], []⟩⟩ kongListens).map
      (fun st => hasCondTS st.conditions ListenerConditionConflicted ConditionTrue) =
      [false, false]) ∧
    ((getListenerStatus ⟨"gw", "ns", gen, "cls",
        [⟨nb, some "a.com", p, HTTPSProtocolType⟩, ⟨na, some "a.com", p, HTTPSProtocolType⟩],
        ⟨[], []⟩⟩ kongListens).map
      (fun st => hasCondTS st.conditions ListenerConditionConflicted ConditionTrue) =
      [false, false]) ∧
    ((getListenerStatus ⟨"gw", "ns", gen, "cls",
        [⟨na, some "a.com", p, HTTPSProtocolType⟩, ⟨nb, some "a.com", p, HTTPSProtocolType⟩],
        ⟨[], [⟨na, supportedRouteGroupKinds, ar, [c0]⟩]⟩⟩ kongListens).map
      (fun st => (hasCondTS st.conditions ListenerConditionConflicted ConditionTrue,
        hasCond st.conditions ListenerConditionConflicted ConditionTrue
          ListenerReasonHostnameConflict)) = [(false, false), (true, true)]) := by
  have hne' : (na == nb) = false := by rw [beq_eq_false_iff_ne]; exact hnames
  have hc0 : (c0.type == ListenerConditionConflicted && c0.status == ConditionFalse) = true := by
    simp [hts, hcs]
  refine ⟨?_, ?_, ?_, ?_, ?_⟩
  · exact two_https_emptyPrev_unconflicted gen p kongListens na nb (some "a.com") none
  · exact two_https_emptyPrev_unconflicted gen p kongListens nb na none (some "a.com")
  · exact two_https_emptyPrev_unconflicted gen p kongListens na nb (some "a.com") (some "a.com")
  · exact two_https_emptyPrev_unconflicted gen p kongListens nb na (some "a.com") (some "a.com")
  · exact (preseeded_hostname_conflict_helper p gen ar (some "a.com") (some "a.com")
      HTTPSProtocolType HTTPSProtocolType na nb kongListens c0
      (by decide) (by decide) (by decide) hne' hc0 rfl).1

/-- C6 witness: the amended hostname-uniqueness theorem applied at a concrete
input; shown here is its last conjunct, two a.com HTTPS listeners where the
first carries a pre-seeded Conflicted=False status. -/
theorem getListenerStatus_hostname_uniqueness_witness :
    ("x" : String) ≠ "y" ∧
    ((getListenerStatus ⟨"gw", "ns", 1, "cls",
        [⟨"x", some "a.com", 443, HTTPSProtocolType⟩, ⟨"y", some "a.com", 443, HTTPSProtocolType⟩],
        ⟨[], [⟨"x", supportedRouteGroupKinds, 0,
          [⟨ListenerConditionConflicted, ConditionFalse, 0, ListenerReasonNoConflicts, ""⟩]⟩]⟩⟩
        []).map
      (fun st => (hasCondTS st.conditions ListenerConditionConflicted ConditionTrue,
        hasCond st.conditions ListenerConditionConflicted ConditionTrue
          ListenerReasonHostnameConflict)) = [(false, false), (true, true)]) :=
  ⟨by decide,
    (getListenerStatus_hostname_uniqueness 443 1 0 "x" "y" []
      ⟨ListenerConditionConflicted, ConditionFalse, 0, ListenerReasonNoConflicts, ""⟩
      (by decide) rfl rfl).2.2.2.2⟩

/-- C10 counterexample: two pre-seeded listeners (both previously
Conflicted=False) on the same (port, hostname) pair, with HTTP/HTTPS-mixed
protocols.  The earlier listener does get Conflicted=True (HostnameConflict),
but the later listener ALSO gets a Conflicted=True condition (ProtocolConflict,
since the port claim carries the earlier listener's protocol), refuting "the
later listener receives no conflict condition". -/
theorem getListenerStatus_preseed_mixed_proto_conflicts :
    (getListenerStatus mixedProtoBothPrevGw []).map
      (fun st => (hasCond st.conditions ListenerConditionConflicted ConditionTrue
        ListenerReasonHostnameConflict,
        hasCondTS st.conditions ListenerConditionConflicted ConditionTrue)) =
      [(true, true), (false, true)] := by
  decide

/-- C10 (amended): in the pre-seeding pass the port claim is first-claim-wins
and the (port, hostname) claim is last-claim-wins: if two listeners with
compatible HTTP(S)/TLS-family protocols (the same protocol, or one HTTPS and
one TLS) both carry a previous Conflicted=False status and normalise to the
same (port, hostname) pair, the later listener ends up owning the hostname
claim, so the earlier one is marked Conflicted=True (HostnameConflict) and the
later one gets no Conflicted=True condition. -/
theorem getListenerStatus_preseed_last_claim_wins (p gen ar1 ar2 : Int)
    (ha hb : Option String) (protoA protoB na nb : String) (kongListens : List Listener)
    (c0 c1 : Condition)
    (hfam : protoA = HTTPProtocolType ∨ protoA = HTTPSProtocolType ∨ protoA = TLSProtocolType)
    (hcompat : protoB = protoA ∨ (protoA = HTTPSProtocolType ∧ protoB = TLSProtocolType) ∨
      (protoA = TLSProtocolType ∧ protoB = HTTPSProtocolType))
    (hnames : na ≠ nb)
    (hh : hb.getD "" = ha.getD "")
    (hts0 : c0.type = ListenerConditionConflicted) (hcs0 : c0.status = ConditionFalse)
    (hts1 : c1.type = ListenerConditionConflicted) (hcs1 : c1.status = ConditionFalse) :
    (getListenerStatus ⟨"gw", "ns", gen, "cls",
        [⟨na, ha, p, protoA⟩, ⟨nb, hb, p, protoB⟩],
        ⟨[], [⟨na, supportedRouteGroupKinds, ar1, [c0]⟩,
          ⟨nb, supportedRouteGroupKinds, ar2, [c1]⟩]⟩⟩ kongListens).map
      (fun st => (hasCond st.conditions ListenerConditionConflicted ConditionTrue
          ListenerReasonHostnameConflict,
        hasCondTS st.conditions ListenerConditionConflicted ConditionTrue)) =
      [(true, true), (false, false)] := by
  have hne' : (na == nb) = false := by rw [beq_eq_false_iff_ne]; exact hnames
  have hne'' : (nb == na) = false := by
    rw [beq_eq_false_iff_ne]; exact fun hc => hnames hc.symm
  have hc0 : (c0.type == ListenerConditionConflicted && c0.status == ConditionFalse) = true := by
    simp [hts0, hcs0]
  have hc1 : (c1.type == ListenerConditionConflicted && c1.status == ConditionFalse) = true := by
    simp [hts1, hcs1]
  have hfamA : (protoA == HTTPProtocolType || protoA == HTTPSProtocolType ||
      protoA == TLSProtocolType) = true := by
    rcases hfam with h | h | h <;> simp [h]
  have hnotTU : (protoA == TCPProtocolType || protoA == UDPProtocolType) = false := by
    rcases hfam with h | h | h <;>
      simp [h, HTTPProtocolType, HTTPSProtocolType, TLSProtocolType, TCPProtocolType,
        UDPProtocolType]
  have hfamB : (protoB == HTTPProtocolType || protoB == HTTPSProtocolType ||
      protoB == TLSProtocolType) = true := by
    rcases hcompat with h | ⟨h1, h2⟩ | ⟨h1, h2⟩
    · rw [h]; exact hfamA
    · simp [h2, TLSProtocolType]
    · simp [h2, HTTPSProtocolType]
  have hcompatB : (protoA == protoB ||
      (protoB == HTTPSProtocolType && protoA == TLSProtocolType) ||
      (protoB == TLSProtocolType && protoA == HTTPSProtocolType)) = true := by
    rcases hcompat with h | ⟨h1, h2⟩ | ⟨h1, h2⟩
    · simp [h]
    · simp [h1, h2, HTTPSProtocolType, TLSProtocolType]
    · simp [h1, h2, HTTPSProtocolType, TLSProtocolType]
  have hE : buildExisting [⟨na, supportedRouteGroupKinds, ar1, [c0]⟩,
      ⟨nb, supportedRouteGroupKinds, ar2, [c1]⟩] =
      [(nb, ⟨nb, supportedRouteGroupKinds, ar2, [c1]⟩),
       (na, ⟨na, supportedRouteGroupKinds, ar1, [c0]⟩)] := by
    simp [buildExisting, insertA, hne']
  have hpreA : preseedListener [(nb, ⟨nb, supportedRouteGroupKinds, ar2, [c1]⟩),
      (na, ⟨na, supportedRouteGroupKinds, ar1, [c0]⟩)] ⟨[], []⟩ ⟨na, ha, p, protoA⟩ =
      ⟨[(p, protoA)], [(p, [(ha.getD "", na)])]⟩ := by
    simp [preseedListener, lookupA_cons, hne'', preseedCondition, hc0, hfamA, insertA, lookupA]
  have hpreB : preseedListener [(nb, ⟨nb, supportedRouteGroupKinds, ar2, [c1]⟩),
      (na, ⟨na, supportedRouteGroupKinds, ar1, [c0]⟩)]
      ⟨[(p, protoA)], [(p, [(ha.getD "", na)])]⟩ ⟨nb, hb, p, protoB⟩ =
      ⟨[(p, protoA)], [(p, [(ha.getD "", nb)])]⟩ := by
    simp [preseedListener, lookupA_cons, preseedCondition, hc1, hfamB, insertA, lookupA, hh]
  have hcA : evalConflict gen ⟨na, ha, p, protoA⟩
      ⟨[(p, protoA)], [(p, [(ha.getD "", nb)])]⟩ =
      ⟨⟨[(p, protoA)], [(p, [(ha.getD "", nb)])]⟩, [hostnameConflictCond gen]⟩ := by
    simp [evalConflict, lookupA_cons, hnotTU, hne'']
  have hcB : evalConflict gen ⟨nb, hb, p, protoB⟩
      ⟨[(p, protoA)], [(p, [(ha.getD "", nb)])]⟩ =
      ⟨⟨[(p, protoA)], [(p, [(ha.getD "", nb)])]⟩, []⟩ := by
    simp [evalConflict, lookupA_cons, hnotTU, hcompatB, hh]
  have hg : getListenerStatus ⟨"gw", "ns", gen, "cls",
      [⟨na, ha, p, protoA⟩, ⟨nb, hb, p, protoB⟩],
      ⟨[], [⟨na, supportedRouteGroupKinds, ar1, [c0]⟩,
        ⟨nb, supportedRouteGroupKinds, ar2, [c1]⟩]⟩⟩ kongListens =
      evalListeners gen (buildProtocols kongListens)
        (buildExisting [⟨na, supportedRouteGroupKinds, ar1, [c0]⟩,
          ⟨nb, supportedRouteGroupKinds, ar2, [c1]⟩])
        (preseedPass (buildExisting [⟨na, supportedRouteGroupKinds, ar1, [c0]⟩,
          ⟨nb, supportedRouteGroupKinds, ar2, [c1]⟩])
          [⟨na, ha, p, protoA⟩, ⟨nb, hb, p, protoB⟩])
        [⟨na, ha, p, protoA⟩, ⟨nb, hb, p, protoB⟩] := rfl
  have hpre : preseedPass [(nb, ⟨nb, supportedRouteGroupKinds, ar2, [c1]⟩),
      (na, ⟨na, supportedRouteGroupKinds, ar1, [c0]⟩)]
      [⟨na, ha, p, protoA⟩, ⟨nb, hb, p, protoB⟩] =
      ⟨[(p, protoA)], [(p, [(ha.getD "", nb)])]⟩ := by
    rw [preseedPass, List.foldl_cons, List.foldl_cons, List.foldl_nil, hpreA, hpreB]
  have hm1 : (evalListener gen (buildProtocols kongListens)
      [(nb, ⟨nb, supportedRouteGroupKinds, ar2, [c1]⟩),
       (na, ⟨na, supportedRouteGroupKinds, ar1, [c0]⟩)]
      ⟨[(p, protoA)], [(p, [(ha.getD "", nb)])]⟩ ⟨na, ha, p, protoA⟩).1 =
      ⟨[(p, protoA)], [(p, [(ha.getD "", nb)])]⟩ := by
    rw [show (evalListener gen (buildProtocols kongListens)
        [(nb, ⟨nb, supportedRouteGroupKinds, ar2, [c1]⟩),
         (na, ⟨na, supportedRouteGroupKinds, ar1, [c0]⟩)]
        ⟨[(p, protoA)], [(p, [(ha.getD "", nb)])]⟩ ⟨na, ha, p, protoA⟩).1 =
      (evalConflict gen ⟨na, ha, p, protoA⟩
        ⟨[(p, protoA)], [(p, [(ha.getD "", nb)])]⟩).maps from rfl, hcA]
  rw [hg, hE, hpre, evalListeners_two, List.map_cons, List.map_cons, List.map_nil, hm1,
    hasCond_evalListener, hasCondTS_evalListener, hasCond_evalListener,
    hasCondTS_evalListener, hcA, hcB]
  simp [hasCondTS, hasCond, hostnameConflictCond]

/-- C10 witness: the amended pre-seeding theorem at a concrete input (two
pre-seeded HTTPS listeners on port 80 with hostname h.com). -/
theorem getListenerStatus_preseed_last_claim_wins_witness :
    ("a" : String) ≠ "b" ∧
    (getListenerStatus ⟨"gw", "ns", 2, "cls",
        [⟨"a", some "h.com", 80, HTTPSProtocolType⟩, ⟨"b", some "h.com", 80, HTTPSProtocolType⟩],
        ⟨[], [⟨"a", supportedRouteGroupKinds, 0,
            [⟨ListenerConditionConflicted, ConditionFalse, 1, ListenerReasonNoConflicts, ""⟩]⟩,
          ⟨"b", supportedRouteGroupKinds, 0,
            [⟨ListenerConditionConflicted, ConditionFalse, 1, ListenerReasonNoConflicts, ""⟩]⟩]⟩⟩
        []).map
      (fun st => (hasCond st.conditions ListenerConditionConflicted ConditionTrue
          ListenerReasonHostnameConflict,
        hasCondTS st.conditions ListenerConditionConflicted ConditionTrue)) =
      [(true, true), (false, false)] :=
  ⟨by decide,
    getListenerStatus_preseed_last_claim_wins 80 2 0 0 (some "h.com") (some "h.com")
      HTTPSProtocolType HTTPSProtocolType "a" "b" []
      ⟨ListenerConditionConflicted, ConditionFalse, 1, ListenerReasonNoConflicts, ""⟩
      ⟨ListenerConditionConflicted, ConditionFalse, 1, ListenerReasonNoConflicts, ""⟩
      (Or.inr (Or.inl rfl)) (Or.inl rfl) (by decide) rfl rfl rfl rfl rfl⟩

/-- C1 counterexample: `isGatewayReady` returns true for a Gateway none of whose
conditions has status True, refuting "no condition whose status is not True can
make IsReady return true": the code never inspects the condition's status. -/
theorem isGatewayReady_ignores_status :
    isGatewayReady readyStatusFalseGw = true ∧
      readyStatusFalseGw.status.conditions.all (fun c => !(c.status == ConditionTrue)) = true := by
  decide

/-- C1 (amended): `isGatewayReady` returns true iff the Gateway's top-level
conditions contain a condition whose type is Ready, whose reason is Ready and
whose observed generation equals the Gateway's current generation — regardless
of the condition's status. -/
theorem isGatewayReady_characterization (gateway : Gateway) :
    isGatewayReady gateway = true ↔
      ∃ cond ∈ gateway.status.conditions,
        cond.type = GatewayConditionReady ∧ cond.reason = GatewayReasonReady ∧
          cond.observedGeneration = gateway.generation := by
  simp only [isGatewayReady, List.any_eq_true, Bool.and_eq_true, beq_iff_eq]
  constructor
  · rintro ⟨c, hc, ⟨ht, hr⟩, hg⟩
    exact ⟨c, hc, ht, hr, hg⟩
  · rintro ⟨c, hc, ht, hr, hg⟩
    exact ⟨c, hc, ⟨ht, hr⟩, hg⟩

/-- C7: pruning leaves the top-level conditions unchanged when there are at most
`maxConds` of them, otherwise keeps exactly the last `maxConds` in original
order (drop from the front), and pruning is idempotent. -/
theorem prune_of_le (gateway : Gateway) (h : gateway.status.conditions.length ≤ maxConds) :
    pruneGatewayStatusConds gateway = gateway := by
  rw [pruneGatewayStatusConds, if_neg (Nat.not_lt.mpr h)]

theorem prune_conds_of_gt (gateway : Gateway) (h : maxConds < gateway.status.conditions.length) :
    (pruneGatewayStatusConds gateway).status.conditions =
      gateway.status.conditions.drop (gateway.status.conditions.length - maxConds) := by
  simp [pruneGatewayStatusConds, h]

theorem pruneGatewayStatusConds_spec (gateway : Gateway) :
    (gateway.status.conditions.length ≤ maxConds → pruneGatewayStatusConds gateway = gateway) ∧
    (maxConds < gateway.status.conditions.length →
      (pruneGatewayStatusConds gateway).status.conditions =
        gateway.status.conditions.drop (gateway.status.conditions.length - maxConds) ∧
      (pruneGatewayStatusConds gateway).status.conditions.length = maxConds) ∧
    pruneGatewayStatusConds (pruneGatewayStatusConds gateway) = pruneGatewayStatusConds gateway := by
  by_cases h : gateway.status.conditions.length > maxConds
  · have hconds := prune_conds_of_gt gateway h
    have hlen : (pruneGatewayStatusConds gateway).status.conditions.length = maxConds := by
      rw [hconds, List.length_drop]
      exact Nat.sub_sub_self (Nat.le_of_lt h)
    exact ⟨fun hle => absurd h (Nat.not_lt_of_le hle), fun _ => ⟨hconds, hlen⟩,
      prune_of_le _ (by rw [hlen])⟩
  · have heq : pruneGatewayStatusConds gateway = gateway :=
      prune_of_le gateway (Nat.not_lt.mp h)
    exact ⟨fun _ => heq, fun hlt => absurd hlt h, by rw [heq, heq]⟩

/-- C7 witness: the 12-condition Gateway is pruned to its last 8 conditions. -/
theorem pruneGatewayStatusConds_spec_witness :
    maxConds < twelveCondGw.status.conditions.length ∧
      (pruneGatewayStatusConds twelveCondGw).status.conditions =
        twelveCondGw.status.conditions.drop
          (twelveCondGw.status.conditions.length - maxConds) :=
  ⟨by decide, ((pruneGatewayStatusConds_spec twelveCondGw).2.1 (by decide)).1⟩

/-- C8: the event predicate returns true iff at least one of the event's payload
objects (one for create/delete/generic, both for update) is a GatewayClass whose
`ControllerName` equals this controller's identity; an unrecognised payload or a
non-GatewayClass object yields false rather than failing. -/
theorem isGatewayClassEventInClass_characterization (watchEvent : WatchEvent) :
    isGatewayClassEventInClass watchEvent = true ↔
      ∃ obj ∈ eventPayloadObjects watchEvent,
        obj = ClientObject.gatewayClass ControllerName := by
  cases watchEvent with
  | create obj =>
    cases obj <;> simp [isGatewayClassEventInClass, eventPayloadObjects, objInClass]
  | delete obj =>
    cases obj <;> simp [isGatewayClassEventInClass, eventPayloadObjects, objInClass]
  | generic obj =>
    cases obj <;> simp [isGatewayClassEventInClass, eventPayloadObjects, objInClass]
  | update objOld objNew =>
    cases objOld <;> cases objNew <;>
      simp [isGatewayClassEventInClass, eventPayloadObjects, objInClass]
    · exact or_congr eq_comm eq_comm
    · exact eq_comm
    · exact eq_comm
  | unknownPayload =>
    simp [isGatewayClassEventInClass, eventPayloadObjects]

theorem reconcileGateways_foldl_aux (gatewayClassName : String) (gateways : List Gateway)
    (acc : List (String × String)) :
    gateways.foldl
        (fun recs gateway =>
          if gateway.gatewayClassName == gatewayClassName then
            recs ++ [(gateway.ns, gateway.name)]
          else recs)
        acc =
      acc ++ (gateways.filter (fun g => g.gatewayClassName == gatewayClassName)).map
        (fun g => (g.ns, g.name)) := by
  induction gateways generalizing acc with
  | nil => simp
  | cons gateway rest ih =>
    rcases h : (gateway.gatewayClassName == gatewayClassName) with _ | _
    · rw [List.foldl_cons, if_neg (by simp [h]), ih, List.filter_cons_of_neg (by simp [h])]
    · rw [List.foldl_cons, if_pos (by simp [h]), ih, List.filter_cons_of_pos (by simp [h])]
      simp

/-- C9: the fan-out returns exactly one (namespace, name) request for each
Gateway whose class name matches the given class object's name, in input order,
and nothing else — it is the filter of the input by class followed by the
projection to identifiers. -/
theorem reconcileGatewaysIfClassMatches_spec (gatewayClassName : String)
    (gateways : List Gateway) :
    reconcileGatewaysIfClassMatches gatewayClassName gateways =
      (gateways.filter (fun g => g.gatewayClassName == gatewayClassName)).map
        (fun g => (g.ns, g.name)) := by
  simpa [reconcileGatewaysIfClassMatches] using
    reconcileGateways_foldl_aux gatewayClassName gateways []

end KIC
